import Mathlib

/-!
# Verification of the interview voice pipeline

A shallow embedding of the turn-taking core of the repository:

* `backend/vad.py` — `VoiceActivityDetector` (hysteresis-based speech/silence
  classification with a one-shot silence callback);
* `backend/conversation.py` — `ConversationManager` (the turn orchestrator);
* `backend/utils.py` — `InterviewTimer`.

Modelling conventions:

* Wall-clock time (`time.time()`) is passed explicitly as a rational `now`.
* The WebRTC classifier `self.vad.is_speech` is an external collaborator and is
  modelled as an oracle `classify : List Nat → Option Bool`; `none` models the
  classifier raising an exception (the `except` path of `process_frame`).
* Audio byte strings are `List Nat`.
* The AI collaborators (language generation, speech synthesis, base64 encoding)
  are opaque oracle functions gathered in a `Collab` record.
* `asyncio` scheduling is modelled by a FIFO ready queue of task segments; a
  coroutine segment runs atomically up to its next `await`, whose continuation
  is enqueued at the back of the queue.
-/

namespace Interview

/-! ## VoiceActivityDetector (backend/vad.py) -/

/-- Constructor configuration of `VoiceActivityDetector`
(sample rate, frame duration, silence threshold, aggressiveness mode). -/
structure VADConfig where
  sample_rate : Nat
  frame_duration_ms : Nat
  silence_threshold_seconds : ℚ
  vad_mode : Nat
  deriving DecidableEq, Repr

/-- Model of `self.frame_size = int(sample_rate * frame_duration_ms / 1000) * 2`. -/
def frame_size (cfg : VADConfig) : Nat :=
  (cfg.sample_rate * cfg.frame_duration_ms / 1000) * 2

/-- Model of `self.silence_padding_frames = 3` (set in the constructor, never mutated). -/
def silence_padding_frames : Nat := 3

/-- Model of `self.speech_padding_frames = 3` (set in the constructor, never mutated). -/
def speech_padding_frames : Nat := 3

/-- The mutable state of `VoiceActivityDetector`. -/
structure VADState where
  is_speaking : Bool
  silence_start : Option ℚ
  speech_detected : Bool
  consecutive_silence : Nat
  consecutive_speech : Nat
  deriving DecidableEq, Repr

/-- The state written by `reset()`: all counters, the speaking flags and the
silence timer are cleared. The constructor initializes the same five fields to
the same values. -/
def resetState : VADState :=
  { is_speaking := false
    silence_start := none
    speech_detected := false
    consecutive_silence := 0
    consecutive_speech := 0 }

/-- Model of `reset()` of `VoiceActivityDetector`. -/
def VADState.reset (_ : VADState) : VADState := resetState

/-- State of the detector right after the constructor. -/
def initState : VADState := resetState

/-- Result of one `process_frame` call: the updated detector state, the
returned boolean (`True` iff speech), and whether `on_silence_detected`
was invoked during the call. -/
structure FrameResult where
  state : VADState
  result : Bool
  fired : Bool
  deriving DecidableEq, Repr

/-- Model of `process_frame(frame)` of `VoiceActivityDetector`.  `classify` is the
external `webrtcvad` classifier (`none` = the classifier raised, the
`except` branch); `now` is the value of `time.time()` during the call. -/
def process_frame (cfg : VADConfig) (classify : List Nat → Option Bool)
    (st : VADState) (frame : List Nat) (now : ℚ) : FrameResult :=
  if frame.length ≠ frame_size cfg then
    -- incorrect frame size: log and return False, no state mutation
    { state := st, result := false, fired := false }
  else
    match classify frame with
    | none =>
      -- the classifier raised: print the error and return False
      { state := st, result := false, fired := false }
    | some true =>
      let st1 := { st with consecutive_speech := st.consecutive_speech + 1,
                           consecutive_silence := 0 }
      let st2 :=
        if st1.consecutive_speech ≥ speech_padding_frames then
          { st1 with is_speaking := true, speech_detected := true,
                     silence_start := none }
        else st1
      { state := st2, result := true, fired := false }
    | some false =>
      let st1 := { st with consecutive_silence := st.consecutive_silence + 1,
                           consecutive_speech := 0 }
      if st1.speech_detected = false then
        { state := st1, result := false, fired := false }
      else
        let st2 :=
          if st1.consecutive_silence = silence_padding_frames ∧
              st1.silence_start = none then
            { st1 with silence_start := some now }
          else st1
        match st2.silence_start with
        | none => { state := st2, result := false, fired := false }
        | some t0 =>
          if now - t0 ≥ cfg.silence_threshold_seconds then
            -- invoke the silence callback, then reset()
            { state := resetState, result := false, fired := true }
          else
            { state := st2, result := false, fired := false }

/-- Feed a list of (frame, time) pairs through the detector, counting how many
times the silence callback fired. -/
def runVAD (cfg : VADConfig) (classify : List Nat → Option Bool) :
    VADState → List (List Nat × ℚ) → VADState × Nat
  | st, [] => (st, 0)
  | st, p :: rest =>
    let r := process_frame cfg classify st p.1 p.2
    let q := runVAD cfg classify r.state rest
    (q.1, (if r.fired then 1 else 0) + q.2)

/-! ### Helper lemmas about `process_frame` -/

theorem process_frame_wrong_length (cfg : VADConfig) (classify : List Nat → Option Bool)
    (st : VADState) (frame : List Nat) (now : ℚ)
    (h : frame.length ≠ frame_size cfg) :
    process_frame cfg classify st frame now = ⟨st, false, false⟩ := by
  simp [process_frame, h]

theorem process_frame_classify_fail (cfg : VADConfig) (classify : List Nat → Option Bool)
    (st : VADState) (frame : List Nat) (now : ℚ)
    (hl : frame.length = frame_size cfg) (hc : classify frame = none) :
    process_frame cfg classify st frame now = ⟨st, false, false⟩ := by
  simp [process_frame, hl, hc]

theorem process_frame_speech_counts (cfg : VADConfig) (classify : List Nat → Option Bool)
    (st : VADState) (frame : List Nat) (now : ℚ)
    (hl : frame.length = frame_size cfg) (hc : classify frame = some true) :
    (process_frame cfg classify st frame now).state.consecutive_speech
        = st.consecutive_speech + 1 ∧
    (process_frame cfg classify st frame now).fired = false := by
  simp only [process_frame, hl, ne_eq, not_true_eq_false, if_false, hc]
  split <;> simp

theorem process_frame_speech_confirm (cfg : VADConfig) (classify : List Nat → Option Bool)
    (st : VADState) (frame : List Nat) (now : ℚ)
    (hl : frame.length = frame_size cfg) (hc : classify frame = some true)
    (h3 : speech_padding_frames ≤ st.consecutive_speech + 1) :
    (process_frame cfg classify st frame now).state.is_speaking = true ∧
    (process_frame cfg classify st frame now).state.silence_start = none := by
  simp [process_frame, hl, hc, h3]

theorem process_frame_silence_early (cfg : VADConfig) (classify : List Nat → Option Bool)
    (st : VADState) (frame : List Nat) (now : ℚ)
    (hl : frame.length = frame_size cfg) (hc : classify frame = some false)
    (hsd : st.speech_detected = true) (hss : st.silence_start = none)
    (hlt : st.consecutive_silence + 1 ≠ silence_padding_frames) :
    (process_frame cfg classify st frame now).state =
      { st with consecutive_silence := st.consecutive_silence + 1,
                consecutive_speech := 0 } := by
  simp [process_frame, hl, hc, hsd, hss, hlt]

theorem process_frame_silence_third (cfg : VADConfig) (classify : List Nat → Option Bool)
    (st : VADState) (frame : List Nat) (now : ℚ)
    (hl : frame.length = frame_size cfg) (hc : classify frame = some false)
    (hsd : st.speech_detected = true) (hss : st.silence_start = none)
    (hcs : st.consecutive_silence + 1 = silence_padding_frames)
    (hθ : 0 < cfg.silence_threshold_seconds) :
    (process_frame cfg classify st frame now).state =
      { st with consecutive_silence := st.consecutive_silence + 1,
                consecutive_speech := 0, silence_start := some now } := by
  have hnot : ¬ cfg.silence_threshold_seconds ≤ 0 := not_le.mpr hθ
  simp [process_frame, hl, hc, hsd, hss, hcs, hnot]

theorem process_frame_no_speech_step (cfg : VADConfig) (classify : List Nat → Option Bool)
    (st : VADState) (frame : List Nat) (now : ℚ)
    (hsd : st.speech_detected = false) (hc : classify frame ≠ some true) :
    (process_frame cfg classify st frame now).fired = false ∧
    (process_frame cfg classify st frame now).state.speech_detected = false := by
  by_cases hl : frame.length ≠ frame_size cfg
  · simp [process_frame, hl, hsd]
  · rcases hcv : classify frame with _ | b
    · simp [process_frame, hl, hcv, hsd]
    · cases b
      · simp [process_frame, hl, hcv, hsd]
      · exact absurd hcv hc

theorem runVAD_no_speech (cfg : VADConfig) (classify : List Nat → Option Bool)
    (frames : List (List Nat × ℚ)) :
    ∀ st : VADState, st.speech_detected = false →
      (∀ p ∈ frames, classify p.1 ≠ some true) →
      (runVAD cfg classify st frames).2 = 0 ∧
      (runVAD cfg classify st frames).1.speech_detected = false := by
  induction frames with
  | nil => intro st hsd _; simp [runVAD, hsd]
  | cons p rest ih =>
    intro st hsd hall
    have hp := process_frame_no_speech_step cfg classify st p.1 p.2 hsd
      (hall p (by simp))
    have hrest := ih (process_frame cfg classify st p.1 p.2).state hp.2
      (fun q hq => hall q (by simp [hq]))
    simp [runVAD, hp.1, hrest.1, hrest.2]

theorem process_frame_fired_charact (cfg : VADConfig) (classify : List Nat → Option Bool)
    (st : VADState) (frame : List Nat) (now : ℚ)
    (h : (process_frame cfg classify st frame now).fired = true) :
    st.speech_detected = true ∧
    (∃ t0 : ℚ, (st.silence_start = some t0 ∨ (st.silence_start = none ∧ t0 = now)) ∧
      cfg.silence_threshold_seconds ≤ now - t0) ∧
    (process_frame cfg classify st frame now).state = resetState := by
  by_cases hl : frame.length ≠ frame_size cfg
  · simp [process_frame, hl] at h
  · rcases hcv : classify frame with _ | b
    · simp [process_frame, hl, hcv] at h
    · cases b
      · by_cases hsd : st.speech_detected = false
        · simp [process_frame, hl, hcv, hsd] at h
        · have hsd' : st.speech_detected = true := by
            revert hsd; cases st.speech_detected <;> simp
          refine ⟨hsd', ?_⟩
          by_cases hcond : st.consecutive_silence + 1 = silence_padding_frames ∧
              st.silence_start = none
          · by_cases hth : cfg.silence_threshold_seconds ≤ 0
            · refine ⟨⟨now, Or.inr ⟨hcond.2, rfl⟩, ?_⟩, ?_⟩
              · rw [sub_self]; exact hth
              · simp [process_frame, hl, hcv, hsd', hcond.1, hcond.2, hth]
            · simp [process_frame, hl, hcv, hsd', hcond.1, hcond.2, hth] at h
          · rcases hss : st.silence_start with _ | t0
            · have hne : ¬ (st.consecutive_silence + 1 = silence_padding_frames) := by
                intro hx; exact hcond ⟨hx, hss⟩
              simp [process_frame, hl, hcv, hsd', hss, hne] at h
            · by_cases hth : cfg.silence_threshold_seconds ≤ now - t0
              · refine ⟨⟨t0, Or.inl rfl, hth⟩, ?_⟩
                simp [process_frame, hl, hcv, hsd', hss, hth]
              · simp [process_frame, hl, hcv, hsd', hss, hth] at h
      · have hl' : frame.length = frame_size cfg := not_ne_iff.mp hl
        rw [(process_frame_speech_counts cfg classify st frame now hl' hcv).2] at h
        exact absurd h (by simp)

/-! ### Test fixtures (concrete instantiations used by witnesses) -/

/-- A small concrete detector configuration; its frame size is 2 bytes. -/
def cfgT : VADConfig :=
  { sample_rate := 1000, frame_duration_ms := 1,
    silence_threshold_seconds := 1, vad_mode := 2 }

/-- Concrete classifier oracle: a frame counts as speech iff its first byte is 1. -/
def classifyByHead : List Nat → Option Bool :=
  fun f => if f.headD 0 = 1 then some true else some false

/-- Concrete classifier oracle that always raises. -/
def classifyFail : List Nat → Option Bool := fun _ => none

/-! ### C4 — detector hysteresis -/

/-- C4: with N = 3, from a freshly reset detector the classifier outcomes
speech, speech, silence leave the confirmed-speaking flag false; any 3
consecutive speech-classified frames (from any state) set the
confirmed-speaking flag and clear the silence timer; and after a confirmed
episode, silence-duration measurement starts exactly at the 3rd consecutive
silence-classified frame, not before. -/
theorem C4_hysteresis (cfg : VADConfig) (classify : List Nat → Option Bool)
    (f1 f2 f3 : List Nat) (t1 t2 t3 : ℚ)
    (hl1 : f1.length = frame_size cfg) (hl2 : f2.length = frame_size cfg)
    (hl3 : f3.length = frame_size cfg) :
    (classify f1 = some true → classify f2 = some true → classify f3 = some false →
      (runVAD cfg classify resetState [(f1, t1), (f2, t2), (f3, t3)]).1.is_speaking
        = false) ∧
    (∀ st : VADState, classify f1 = some true → classify f2 = some true →
      classify f3 = some true →
      (runVAD cfg classify st [(f1, t1), (f2, t2), (f3, t3)]).1.is_speaking = true ∧
      (runVAD cfg classify st [(f1, t1), (f2, t2), (f3, t3)]).1.silence_start = none) ∧
    (∀ st : VADState, st.speech_detected = true → st.silence_start = none →
      st.consecutive_silence = 0 → 0 < cfg.silence_threshold_seconds →
      classify f1 = some false → classify f2 = some false → classify f3 = some false →
      (process_frame cfg classify st f1 t1).state.silence_start = none ∧
      (process_frame cfg classify
        (process_frame cfg classify st f1 t1).state f2 t2).state.silence_start = none ∧
      (process_frame cfg classify
        (process_frame cfg classify
          (process_frame cfg classify st f1 t1).state f2 t2).state
        f3 t3).state.silence_start = some t3) := by
  refine ⟨?_, ?_, ?_⟩
  · intro hc1 hc2 hc3
    simp [runVAD, process_frame, hl1, hl2, hl3, hc1, hc2, hc3, resetState,
      speech_padding_frames]
  · intro st hc1 hc2 hc3
    have s1 := process_frame_speech_counts cfg classify st f1 t1 hl1 hc1
    have s2 := process_frame_speech_counts cfg classify
      (process_frame cfg classify st f1 t1).state f2 t2 hl2 hc2
    have h3 : speech_padding_frames ≤
        (process_frame cfg classify
          (process_frame cfg classify st f1 t1).state f2 t2).state.consecutive_speech
          + 1 := by
      rw [s2.1, s1.1]; simp [speech_padding_frames]
    have s3 := process_frame_speech_confirm cfg classify
      (process_frame cfg classify
        (process_frame cfg classify st f1 t1).state f2 t2).state f3 t3 hl3 hc3 h3
    simpa [runVAD] using s3
  · intro st hsd hss hcs hθ hc1 hc2 hc3
    have e1 := process_frame_silence_early cfg classify st f1 t1 hl1 hc1 hsd hss
      (by rw [hcs]; simp [silence_padding_frames])
    have e2 := process_frame_silence_early cfg classify
      (process_frame cfg classify st f1 t1).state f2 t2 hl2 hc2
      (by rw [e1]; exact hsd) (by rw [e1]; exact hss)
      (by rw [e1]; simp [hcs, silence_padding_frames])
    have e3 := process_frame_silence_third cfg classify
      (process_frame cfg classify
        (process_frame cfg classify st f1 t1).state f2 t2).state f3 t3 hl3 hc3
      (by rw [e2, e1]; exact hsd) (by rw [e2, e1]; exact hss)
      (by rw [e2, e1]; simp [hcs, silence_padding_frames]) hθ
    refine ⟨by rw [e1]; exact hss, by rw [e2, e1]; exact hss, by rw [e3]⟩

/-- Witness for C4 at a concrete configuration, classifier and frames. -/
theorem C4_hysteresis_witness :
    (runVAD cfgT classifyByHead resetState
      [([1,1], 0), ([1,1], 0), ([0,0], 0)]).1.is_speaking = false ∧
    (runVAD cfgT classifyByHead resetState
      [([1,1], 0), ([1,1], 0), ([1,1], 0)]).1.is_speaking = true := by
  constructor
  · exact (C4_hysteresis cfgT classifyByHead [1,1] [1,1] [0,0] 0 0 0
      (by decide) (by decide) (by decide)).1 (by decide) (by decide) (by decide)
  · exact ((C4_hysteresis cfgT classifyByHead [1,1] [1,1] [1,1] 0 0 0
      (by decide) (by decide) (by decide)).2.1 resetState
      (by decide) (by decide) (by decide)).1

/-! ### C5 — one-shot silence callback -/

/-- C5: the silence callback fires only from a state in which a confirmed-speech
episode has occurred, and only once the confirmed silence duration has reached
the configured threshold; the firing step leaves the detector fully reset; no
callback ever fires over a frame sequence containing no speech-classified frame
starting from an unconfirmed state (in particular on leading silence), and
after a firing step the same episode cannot refire. -/
theorem C5_silence_callback (cfg : VADConfig) (classify : List Nat → Option Bool)
    (st : VADState) (frame : List Nat) (now : ℚ) :
    ((process_frame cfg classify st frame now).fired = true →
      st.speech_detected = true ∧
      (∃ t0 : ℚ, (st.silence_start = some t0 ∨ (st.silence_start = none ∧ t0 = now)) ∧
        cfg.silence_threshold_seconds ≤ now - t0) ∧
      (process_frame cfg classify st frame now).state = resetState) ∧
    (∀ frames : List (List Nat × ℚ), st.speech_detected = false →
      (∀ p ∈ frames, classify p.1 ≠ some true) →
      (runVAD cfg classify st frames).2 = 0) ∧
    ((process_frame cfg classify st frame now).fired = true →
      ∀ rest : List (List Nat × ℚ), (∀ p ∈ rest, classify p.1 ≠ some true) →
      (runVAD cfg classify (process_frame cfg classify st frame now).state rest).2
        = 0) := by
  refine ⟨process_frame_fired_charact cfg classify st frame now, ?_, ?_⟩
  · intro frames hsd hall
    exact (runVAD_no_speech cfg classify frames st hsd hall).1
  · intro hf rest hall
    have hreset := (process_frame_fired_charact cfg classify st frame now hf).2.2
    rw [hreset]
    exact (runVAD_no_speech cfg classify rest resetState rfl hall).1

/-- Witness for C5: a concrete firing step (confirmed speech, silence started at
time 0, current time 2, threshold 1 second), followed by silent frames that do
not refire. -/
theorem C5_silence_callback_witness :
    (⟨true, some 0, true, 3, 0⟩ : VADState).speech_detected = true ∧
    (process_frame cfgT classifyByHead ⟨true, some 0, true, 3, 0⟩ [0,0] 2).state
      = resetState ∧
    (runVAD cfgT classifyByHead
      (process_frame cfgT classifyByHead ⟨true, some 0, true, 3, 0⟩ [0,0] 2).state
      [([0,0], 3), ([0,0], 4)]).2 = 0 ∧
    (runVAD cfgT classifyByHead resetState [([0,0], 0), ([0,0], 1), ([0,0], 9)]).2
      = 0 := by
  have hfire : (process_frame cfgT classifyByHead
      ⟨true, some 0, true, 3, 0⟩ [0,0] 2).fired = true := by
    simp [process_frame, cfgT, classifyByHead, frame_size, silence_padding_frames]
  have h := C5_silence_callback cfgT classifyByHead ⟨true, some 0, true, 3, 0⟩ [0,0] 2
  refine ⟨(h.1 hfire).1, (h.1 hfire).2.2, ?_, ?_⟩
  · exact h.2.2 hfire [([0,0], 3), ([0,0], 4)] (by decide)
  · exact (C5_silence_callback cfgT classifyByHead resetState [0,0] 0).2.1
      [([0,0], 0), ([0,0], 1), ([0,0], 9)] (by decide) (by decide)

/-! ### C6 — wrong-length frames are rejected without state mutation -/

/-- C6: a frame whose length differs from `frame_size` is rejected:
`process_frame` returns the silence result, invokes no callback, and leaves
every component of the detector state unchanged. -/
theorem C6_wrong_length_rejected (cfg : VADConfig) (classify : List Nat → Option Bool)
    (st : VADState) (frame : List Nat) (now : ℚ)
    (h : frame.length ≠ frame_size cfg) :
    process_frame cfg classify st frame now =
      { state := st, result := false, fired := false } :=
  process_frame_wrong_length cfg classify st frame now h

/-- Witness for C6: a 1-byte frame against the 2-byte frame size. -/
theorem C6_wrong_length_rejected_witness :
    process_frame cfgT classifyByHead initState [0] 0 =
      { state := initState, result := false, fired := false } :=
  C6_wrong_length_rejected cfgT classifyByHead initState [0] 0 (by decide)

/-! ### C9 — classifier failure is fail-open -/

/-- C9: if the internal classifier raises on a frame of correct length,
`process_frame` returns the silence result without propagating the failure or
mutating state, and subsequent frames are processed exactly as if the failing
frame had not arrived. -/
theorem C9_classifier_fail_open (cfg : VADConfig) (classify : List Nat → Option Bool)
    (st : VADState) (frame : List Nat) (now : ℚ)
    (hl : frame.length = frame_size cfg) (hc : classify frame = none) :
    process_frame cfg classify st frame now =
      { state := st, result := false, fired := false } ∧
    (∀ f2 : List Nat, ∀ n2 : ℚ,
      process_frame cfg classify (process_frame cfg classify st frame now).state f2 n2
        = process_frame cfg classify st f2 n2) := by
  have he := process_frame_classify_fail cfg classify st frame now hl hc
  exact ⟨he, fun f2 n2 => by rw [he]⟩

/-- Witness for C9: an always-raising classifier on a well-sized frame. -/
theorem C9_classifier_fail_open_witness :
    process_frame cfgT classifyFail initState [0, 0] 0 =
      { state := initState, result := false, fired := false } :=
  (C9_classifier_fail_open cfgT classifyFail initState [0, 0] 0
    (by decide) (by decide)).1

/-! ### C10 — counter mutual exclusion invariant -/

/-- At most one of the two consecutive-frame counters is nonzero. -/
def counterMutex (st : VADState) : Prop :=
  st.consecutive_speech = 0 ∨ st.consecutive_silence = 0

/-- C10: after the constructor, after `reset()`, and after any `process_frame`
call on any input, at most one of the consecutive-speech and
consecutive-silence counters is nonzero. -/
theorem C10_counter_mutex :
    counterMutex initState ∧ (∀ st : VADState, counterMutex st.reset) ∧
    (∀ (cfg : VADConfig) (classify : List Nat → Option Bool) (st : VADState)
      (frame : List Nat) (now : ℚ), counterMutex st →
      counterMutex (process_frame cfg classify st frame now).state) := by
  refine ⟨Or.inl rfl, fun st => Or.inl rfl, ?_⟩
  intro cfg classify st frame now h
  by_cases hl : frame.length ≠ frame_size cfg
  · simpa [process_frame, hl] using h
  · rcases hcv : classify frame with _ | b
    · simpa [process_frame, hl, hcv] using h
    · cases b
      · by_cases hsd : st.speech_detected = false
        · simp [process_frame, hl, hcv, hsd, counterMutex]
        · have hsd' : st.speech_detected = true := by
            revert hsd; cases st.speech_detected <;> simp
          apply Or.inl
          by_cases hcond : st.consecutive_silence + 1 = silence_padding_frames ∧
              st.silence_start = none
          · by_cases hth : cfg.silence_threshold_seconds ≤ 0
            · simp [process_frame, hl, hcv, hsd', hcond.1, hcond.2, hth, resetState]
            · simp [process_frame, hl, hcv, hsd', hcond.1, hcond.2, hth]
          · rcases hss : st.silence_start with _ | t0
            · have hne : ¬ (st.consecutive_silence + 1 = silence_padding_frames) :=
                fun hx => hcond ⟨hx, hss⟩
              simp [process_frame, hl, hcv, hsd', hss, hne]
            · by_cases hth : cfg.silence_threshold_seconds ≤ now - t0
              · simp [process_frame, hl, hcv, hsd', hss, hth, resetState]
              · simp [process_frame, hl, hcv, hsd', hss, hth]
      · apply Or.inr
        by_cases h3 : speech_padding_frames ≤ st.consecutive_speech + 1
        · simp [process_frame, hl, hcv, h3]
        · simp [process_frame, hl, hcv, h3]

/-- Witness for C10's `process_frame` clause at a concrete input. -/
theorem C10_counter_mutex_witness :
    counterMutex (process_frame cfgT classifyByHead initState [1, 1] 0).state :=
  C10_counter_mutex.2.2 cfgT classifyByHead initState [1, 1] 0 (Or.inl rfl)

/-! ## ConversationManager (backend/conversation.py) and InterviewTimer
(backend/utils.py) -/

/-- Python's `str.strip()` on the default whitespace set. -/
def pyIsSpace (c : Char) : Bool :=
  c == ' ' || c == '\t' || c == '\n' || c == '\r' || c == '\x0b' || c == '\x0c'

/-- Model of Python `s.strip()`: drop leading and trailing whitespace. -/
def pyStrip (s : String) : String :=
  ⟨((s.data.dropWhile pyIsSpace).reverse.dropWhile pyIsSpace).reverse⟩

/-- Model of `InterviewTimer` from `backend/utils.py`: `duration_seconds` and the
optional start instant. -/
structure InterviewTimer where
  duration_seconds : ℚ
  start_time : Option ℚ
  deriving DecidableEq, Repr

/-- Model of `InterviewTimer.is_expired()` at wall-clock time `now`. -/
def InterviewTimer.is_expired (t : InterviewTimer) (now : ℚ) : Bool :=
  match t.start_time with
  | none => false
  | some s => decide (now - s ≥ t.duration_seconds)

/-- One entry of `conversation_history`: a `{"role": …, "text": …}` dict. -/
structure Turn where
  role : String
  text : String
  deriving DecidableEq, Repr

/-- The external AI collaborators used by `ConversationManager`
(`InterviewerAI.generate_response`, `InterviewerAI.generate_closing`,
`VoiceSynthesizer.synthesize`, and `encode_audio_to_base64`), all opaque
services modelled as oracles. -/
structure Collab where
  generate_response : String → List Turn → String
  generate_closing : String → String
  synthesize : String → List Nat
  encode : List Nat → String

/-- Mutable per-session state of `ConversationManager`. -/
structure OrchState where
  candidate_name : String
  conversation_history : List Turn
  current_user_speech : String
  is_ai_speaking : Bool
  interview_active : Bool
  response_in_progress : Bool
  websocket : Bool
  audio_buffer : List Nat
  vadState : VADState
  timer : InterviewTimer
  recognizer_open : Bool
  deriving DecidableEq, Repr

/-- Payloads sent over the WebSocket (`send_json` calls). -/
inductive Payload where
  | ai_response (text : String) (audio : String)
  | stop_ai_audio
  | interview_end (text : String) (audio : String)
  deriving DecidableEq, Repr

/-- Whether a payload is an `ai_response` payload. -/
def Payload.isAiResponse : Payload → Bool
  | .ai_response _ _ => true
  | _ => false

/-- A pending `asyncio` task segment on the event loop's ready queue.
`_generate_and_send_response` has exactly one `await` on its success path
(`websocket.send_json`), so it splits into the segment up to and including
that send (`genResponse`) and the continuation holding the `finally` block
(`genFinally`). -/
inductive PendingTask where
  | genResponse
  | genFinally
  deriving DecidableEq, Repr

/-- The whole per-session system: the manager's state, the event loop's FIFO
ready queue, the payloads sent so far, the raw audio forwarded to the
recognition collaborator, and a count of `InterviewerAI.generate_response`
invocations. -/
structure Sys where
  orch : OrchState
  queue : List PendingTask
  emitted : List Payload
  forwarded : List (List Nat)
  llm_calls : Nat
  deriving DecidableEq, Repr

/-- Number of `ai_response` payloads emitted so far. -/
def aiRespCount (s : Sys) : Nat :=
  s.emitted.countP Payload.isAiResponse

/-- Model of `_on_silence_detected` (the VAD callback): if the pending utterance is
non-empty, the AI is not speaking and no response is in progress, schedule
`_generate_and_send_response` via `asyncio.create_task`. -/
def on_silence_detected (s : Sys) : Sys :=
  if pyStrip s.orch.current_user_speech ≠ "" ∧ s.orch.is_ai_speaking = false ∧
      s.orch.response_in_progress = false then
    { s with queue := s.queue ++ [PendingTask.genResponse] }
  else s

/-- Model of `_handle_interruption(first_transcript)`: clear `is_ai_speaking`, send one
`stop_ai_audio` payload if the websocket is attached, reset the detector, and
overwrite the pending utterance with the stripped transcript. -/
def handle_interruption (s : Sys) (first_transcript : String) : Sys :=
  let o1 := { s.orch with is_ai_speaking := false }
  let em1 := if o1.websocket then s.emitted ++ [Payload.stop_ai_audio] else s.emitted
  { s with
    orch := { o1 with vadState := resetState,
                      current_user_speech := pyStrip first_transcript },
    emitted := em1 }

/-- Model of `_end_interview()`: no-op if already inactive; otherwise clear the active
flag, generate and synthesize a closing remark, emit one `interview_end`
payload if the websocket is attached, and close the recognition stream. -/
def end_interview (cb : Collab) (s : Sys) : Sys :=
  if s.orch.interview_active = false then s
  else
    let closing_text := cb.generate_closing s.orch.candidate_name
    let closing_audio := cb.synthesize closing_text
    let em := if s.orch.websocket then
        s.emitted ++ [Payload.interview_end closing_text (cb.encode closing_audio)]
      else s.emitted
    { s with
      orch := { s.orch with interview_active := false, recognizer_open := false },
      emitted := em }

/-- Model of `stop()`: clear the active flag and close the recognition stream
(no guard, no payload). -/
def stopOp (s : Sys) : Sys :=
  { s with orch := { s.orch with interview_active := false,
                                 recognizer_open := false } }

/-- The first segment of `_generate_and_send_response`: the single-flight
check, flag setting, capture-and-clear of the utterance, detector reset, turn
appends, the `generate_response` and `synthesize` collaborator calls, and —
when the websocket is attached — the `send_json` of the `ai_response` payload,
whose `await` enqueues the rest of the coroutine (`genFinally`).  When the
websocket is absent the coroutine never suspends, so the `finally` block runs
within the same segment. -/
def genResponseSeg (cb : Collab) (s : Sys) : Sys :=
  if s.orch.response_in_progress then s
  else
    let user_text := pyStrip s.orch.current_user_speech
    let o1 := { s.orch with response_in_progress := true, is_ai_speaking := true,
                            current_user_speech := "", vadState := resetState }
    let hist1 := o1.conversation_history ++ [{ role := "candidate", text := user_text }]
    let ai_response_text := cb.generate_response user_text hist1
    let hist2 := hist1 ++ [{ role := "interviewer", text := ai_response_text }]
    let ai_audio := cb.synthesize ai_response_text
    let o2 := { o1 with conversation_history := hist2 }
    if o2.websocket then
      { s with orch := o2, llm_calls := s.llm_calls + 1,
               emitted := s.emitted ++
                 [Payload.ai_response ai_response_text (cb.encode ai_audio)],
               queue := s.queue ++ [PendingTask.genFinally] }
    else
      { s with orch := { o2 with response_in_progress := false },
               llm_calls := s.llm_calls + 1 }

/-- The continuation of `_generate_and_send_response` after the `send_json`
`await`: the `finally` block clearing the single-flight flag. -/
def genFinallySeg (s : Sys) : Sys :=
  { s with orch := { s.orch with response_in_progress := false } }

/-- Run one pending task segment. -/
def execSeg (cb : Collab) : PendingTask → Sys → Sys
  | .genResponse, s => genResponseSeg cb s
  | .genFinally, s => genFinallySeg s

/-- One scheduler step: pop the front of the FIFO ready queue and run it. -/
def runTaskStep (cb : Collab) (s : Sys) : Sys :=
  match s.queue with
  | [] => s
  | t :: rest => execSeg cb t { s with queue := rest }

/-- The session-level events considered for the single-flight and shutdown
analysis: a detector silence notification, one scheduler step, an explicit
`stop()`, and a timer-driven `_end_interview()`. -/
inductive Ev where
  | silence
  | runTask
  | stop
  | endInt
  deriving DecidableEq, Repr

/-- Execute one event. -/
def stepEv (cb : Collab) : Ev → Sys → Sys
  | .silence, s => on_silence_detected s
  | .runTask, s => runTaskStep cb s
  | .stop, s => stopOp s
  | .endInt, s => end_interview cb s

/-- Execute a sequence of events in order. -/
def runEvents (cb : Collab) (es : List Ev) (s : Sys) : Sys :=
  es.foldl (fun a e => stepEv cb e a) s

/-- The loop body of `process_audio_chunk(audio_data)` draining the VAD buffer; the
`fuel` argument bounds the number of loop iterations and is instantiated with
the buffer length, which suffices because each iteration removes
`frame_size > 0` bytes. -/
def drainSteps (cfg : VADConfig) (classify : List Nat → Option Bool) (now : ℚ) :
    Nat → Sys → Sys
  | 0, s => s
  | fuel + 1, s =>
    if frame_size cfg ≤ s.orch.audio_buffer.length ∧ 0 < frame_size cfg then
      let frame := s.orch.audio_buffer.take (frame_size cfg)
      let r := process_frame cfg classify s.orch.vadState frame now
      let s1 := { s with orch := { s.orch with
        audio_buffer := s.orch.audio_buffer.drop (frame_size cfg),
        vadState := r.state } }
      let s2 := if r.fired then on_silence_detected s1 else s1
      drainSteps cfg classify now fuel s2
    else s

/-- Model of `process_audio_chunk(audio_data)`: no-op when inactive; end the interview
when the timer has expired; otherwise always forward the chunk to the
recognition collaborator, return immediately when the AI is speaking, and
otherwise buffer the chunk and feed every complete frame to the detector. -/
def process_audio_chunk (cfg : VADConfig) (classify : List Nat → Option Bool)
    (cb : Collab) (s : Sys) (audio : List Nat) (now : ℚ) : Sys :=
  if s.orch.interview_active = false then s
  else if s.orch.timer.is_expired now then end_interview cb s
  else
    let s1 := { s with forwarded := s.forwarded ++ [audio] }
    if s1.orch.is_ai_speaking then s1
    else
      let s2 := { s1 with orch := { s1.orch with
        audio_buffer := s1.orch.audio_buffer ++ audio } }
      drainSteps cfg classify now s2.orch.audio_buffer.length s2

/-! ### Concrete orchestrator fixtures -/

/-- Concrete collaborator oracles for witnesses. -/
def cbT : Collab :=
  { generate_response := fun _ _ => "reply"
    generate_closing := fun _ => "goodbye"
    synthesize := fun _ => [7]
    encode := fun _ => "Bw==" }

/-- A started session in the listening state with pending utterance `u`:
active, websocket attached, AI not speaking, no generation in flight, empty
ready queue, timer started at 0 with a 600-second duration. -/
def listeningSys (u : String) : Sys :=
  { orch := { candidate_name := "Ana"
              conversation_history := []
              current_user_speech := u
              is_ai_speaking := false
              interview_active := true
              response_in_progress := false
              websocket := true
              audio_buffer := []
              vadState := resetState
              timer := { duration_seconds := 600, start_time := some 0 }
              recognizer_open := true }
    queue := [], emitted := [], forwarded := [], llm_calls := 0 }

/-- A started session in which the AI is currently speaking, with a pending
partial utterance. -/
def aiSpeakingSys : Sys :=
  { listeningSys "prior" with
      orch := { (listeningSys "prior").orch with is_ai_speaking := true } }

/-- A session that was stopped while a scheduled generation task was still on
the ready queue. -/
def stoppedInFlightSys : Sys :=
  { listeningSys "hello" with
      orch := { (listeningSys "hello").orch with interview_active := false,
                                                 recognizer_open := false },
      queue := [PendingTask.genResponse] }

/-! ### C1 — emission points and the active flag -/

/-- C1 counterexample: from a listening session with pending utterance
"hello", the event sequence silence-notification, `stop()`, scheduler-step
leaves the session inactive before the generation segment runs, yet that
segment still emits an `ai_response` payload: the emission point does not
check the active flag. -/
theorem C1_counterexample :
    (runEvents cbT [Ev.silence, Ev.stop] (listeningSys "hello")).orch.interview_active
        = false ∧
    aiRespCount (runEvents cbT [Ev.silence, Ev.stop] (listeningSys "hello")) = 0 ∧
    (runEvents cbT [Ev.silence, Ev.stop] (listeningSys "hello")).queue
        = [PendingTask.genResponse] ∧
    aiRespCount (runEvents cbT [Ev.silence, Ev.stop, Ev.runTask]
        (listeningSys "hello")) = 1 ∧
    (runEvents cbT [Ev.silence, Ev.stop, Ev.runTask]
        (listeningSys "hello")).orch.interview_active = false := by
  decide

/-- C1 amended: the `ai_response` emission point of the background generation
is guarded only by the single-flight flag and the presence of the websocket,
not by the active flag: a scheduled generation whose single-flight flag is
clear emits exactly one `ai_response` payload regardless of the value of the
active flag, which it does not consult or change. -/
theorem C1_amended_emission (cb : Collab) (s : Sys) (q : List PendingTask)
    (hq : s.queue = PendingTask.genResponse :: q)
    (hflag : s.orch.response_in_progress = false)
    (hws : s.orch.websocket = true) :
    aiRespCount (runTaskStep cb s) = aiRespCount s + 1 ∧
    (runTaskStep cb s).orch.interview_active = s.orch.interview_active := by
  unfold runTaskStep
  rw [hq]
  simp [execSeg, genResponseSeg, hflag, hws, aiRespCount, List.countP_append,
    Payload.isAiResponse]

/-- Witness for the amended C1 at a session already stopped: the payload is
still emitted. -/
theorem C1_amended_emission_witness :
    aiRespCount (runTaskStep cbT stoppedInFlightSys)
        = aiRespCount stoppedInFlightSys + 1 ∧
    (runTaskStep cbT stoppedInFlightSys).orch.interview_active
        = stoppedInFlightSys.orch.interview_active :=
  C1_amended_emission cbT stoppedInFlightSys [] (by decide) (by decide) (by decide)

/-! ### C2 — barge-in interruption handling -/

/-- C2 counterexample: the interruption handler stores the transcript
stripped of surrounding whitespace, not verbatim: for the transcript
`" hi "` arriving while the AI is speaking, the pending accumulator ends up
`"hi"`, not `" hi "`. -/
theorem C2_counterexample :
    aiSpeakingSys.orch.is_ai_speaking = true ∧
    (handle_interruption aiSpeakingSys " hi ").orch.current_user_speech ≠ " hi " ∧
    (handle_interruption aiSpeakingSys " hi ").orch.current_user_speech = "hi" := by
  decide

/-- C2 amended: for every transcript `t` arriving while the AI is speaking in
a session with the websocket attached, the interruption handler appends
exactly one `stop_ai_audio` payload, clears `is_ai_speaking`, resets the
detector, and replaces (not appends to) the pending accumulator with `t`
stripped of leading and trailing whitespace. -/
theorem C2_interruption (s : Sys) (t : String)
    (_hai : s.orch.is_ai_speaking = true) (hws : s.orch.websocket = true) :
    (handle_interruption s t).orch.is_ai_speaking = false ∧
    (handle_interruption s t).emitted = s.emitted ++ [Payload.stop_ai_audio] ∧
    (handle_interruption s t).orch.vadState = resetState ∧
    (handle_interruption s t).orch.current_user_speech = pyStrip t := by
  simp [handle_interruption, hws]

/-- Witness for the amended C2 on a concrete interrupted session. -/
theorem C2_interruption_witness :
    (handle_interruption aiSpeakingSys "stop please").orch.is_ai_speaking = false ∧
    (handle_interruption aiSpeakingSys "stop please").emitted
        = aiSpeakingSys.emitted ++ [Payload.stop_ai_audio] ∧
    (handle_interruption aiSpeakingSys "stop please").orch.vadState = resetState ∧
    (handle_interruption aiSpeakingSys "stop please").orch.current_user_speech
        = pyStrip "stop please" :=
  C2_interruption aiSpeakingSys "stop please" (by decide) (by decide)

/-! ### C7 — transcript-only fast path while the AI speaks -/

/-- While the AI is speaking in an active, non-expired session, one
`process_audio_chunk` call only records the forwarded chunk. -/
theorem process_audio_chunk_fast_path (cfg : VADConfig)
    (classify : List Nat → Option Bool) (cb : Collab) (s : Sys)
    (audio : List Nat) (now : ℚ)
    (hact : s.orch.interview_active = true)
    (hai : s.orch.is_ai_speaking = true)
    (hexp : s.orch.timer.is_expired now = false) :
    process_audio_chunk cfg classify cb s audio now =
      { s with forwarded := s.forwarded ++ [audio] } := by
  simp [process_audio_chunk, hact, hai, hexp]

/-- C7: while `is_ai_speaking` is true and the session is active and
non-expired, any sequence of `process_audio_chunk` calls forwards every chunk
to the recognition collaborator and changes nothing else — in particular the
audio buffer and the whole detector state are untouched. -/
theorem C7_fast_path_sequence (cfg : VADConfig)
    (classify : List Nat → Option Bool) (cb : Collab) (s : Sys)
    (chunks : List (List Nat × ℚ))
    (hact : s.orch.interview_active = true)
    (hai : s.orch.is_ai_speaking = true)
    (hexp : ∀ p ∈ chunks, s.orch.timer.is_expired p.2 = false) :
    chunks.foldl (fun a p => process_audio_chunk cfg classify cb a p.1 p.2) s =
      { s with forwarded := s.forwarded ++ chunks.map Prod.fst } := by
  induction chunks generalizing s with
  | nil => simp
  | cons p rest ih =>
    rw [List.foldl_cons,
      process_audio_chunk_fast_path cfg classify cb s p.1 p.2 hact hai
        (hexp p (by simp)),
      ih { s with forwarded := s.forwarded ++ [p.1] } hact hai
        (fun q hq => hexp q (by simp [hq]))]
    simp

/-- Witness for C7: two chunks forwarded while the AI speaks. -/
theorem C7_fast_path_sequence_witness :
    [( [1], (1:ℚ) ), ( [2], (2:ℚ) )].foldl
        (fun a p => process_audio_chunk cfgT classifyByHead cbT a p.1 p.2)
        aiSpeakingSys =
      { aiSpeakingSys with
          forwarded := aiSpeakingSys.forwarded ++ [[1], [2]] } :=
  C7_fast_path_sequence cfgT classifyByHead cbT aiSpeakingSys
    [([1], 1), ([2], 2)] (by decide) (by decide)
    (by norm_num [aiSpeakingSys, listeningSys, InterviewTimer.is_expired])

/-! ### C8 — idempotent shutdown -/

/-- Dispatch of the two shutdown operations: `true` is `stop()`, `false` is
`_end_interview()`. -/
def termOp (cb : Collab) (op : Bool) (s : Sys) : Sys :=
  if op then stopOp s else end_interview cb s

theorem stopOp_inactive_noop (s : Sys) (h1 : s.orch.interview_active = false)
    (h2 : s.orch.recognizer_open = false) : stopOp s = s := by
  rcases s with ⟨⟨cn, ch, cus, ai, ia, rp, ws, ab, vs, tm, ro⟩, q, em, fw, lc⟩
  simp only [stopOp]
  simp only at h1 h2
  subst h1; subst h2
  rfl

theorem termOp_inactive_noop (cb : Collab) (op : Bool) (s : Sys)
    (h1 : s.orch.interview_active = false)
    (h2 : s.orch.recognizer_open = false) : termOp cb op s = s := by
  cases op with
  | true => simpa [termOp] using stopOp_inactive_noop s h1 h2
  | false => simp [termOp, end_interview, h1]

theorem termOp_terminal (cb : Collab) (op : Bool) (s : Sys)
    (hact : s.orch.interview_active = true) :
    (termOp cb op s).orch.interview_active = false ∧
    (termOp cb op s).orch.recognizer_open = false := by
  cases op with
  | true => simp [termOp, stopOp]
  | false => simp [termOp, end_interview, hact]

/-- C8: `stop()` and `_end_interview()` are idempotent: from an active
session, performing one shutdown operation followed by any further sequence of
shutdown operations produces exactly the same state and payloads as the first
operation alone, and the active flag is false after the first operation (so it
transitions from true to false exactly once; all later stop/end calls are
no-ops). -/
theorem C8_idempotent_shutdown (cb : Collab) (op1 : Bool) (ops : List Bool)
    (s : Sys) (hact : s.orch.interview_active = true) :
    (op1 :: ops).foldl (fun a op => termOp cb op a) s = termOp cb op1 s ∧
    (termOp cb op1 s).orch.interview_active = false := by
  have hterm := termOp_terminal cb op1 s hact
  refine ⟨?_, hterm.1⟩
  rw [List.foldl_cons]
  have : ∀ (l : List Bool) (s' : Sys), s'.orch.interview_active = false →
      s'.orch.recognizer_open = false →
      l.foldl (fun a op => termOp cb op a) s' = s' := by
    intro l
    induction l with
    | nil => intro s' _ _; rfl
    | cons o rest ih =>
      intro s' h1 h2
      rw [List.foldl_cons, termOp_inactive_noop cb o s' h1 h2]
      exact ih s' h1 h2
  exact this ops (termOp cb op1 s) hterm.1 hterm.2

/-- Witness for C8: `stop()` then `_end_interview()` equals `stop()` alone. -/
theorem C8_idempotent_shutdown_witness :
    [true, false].foldl (fun a op => termOp cbT op a) (listeningSys "x")
        = termOp cbT true (listeningSys "x") ∧
    (termOp cbT true (listeningSys "x")).orch.interview_active = false :=
  C8_idempotent_shutdown cbT true [false] (listeningSys "x") (by decide)

/-! ### C3 — single-flight response generation

The proof is by an inductive invariant over the event system: the session is
always in one of three phases — no generation has run yet (A), the single
generation is in flight with its `finally` continuation queued (B), or the
single generation has completed (C). -/

theorem on_silence_pos (s : Sys)
    (hcond : pyStrip s.orch.current_user_speech ≠ "" ∧
      s.orch.is_ai_speaking = false ∧ s.orch.response_in_progress = false) :
    on_silence_detected s = { s with queue := s.queue ++ [PendingTask.genResponse] } := by
  simp [on_silence_detected, hcond]

theorem on_silence_neg (s : Sys)
    (hcond : ¬ (pyStrip s.orch.current_user_speech ≠ "" ∧
      s.orch.is_ai_speaking = false ∧ s.orch.response_in_progress = false)) :
    on_silence_detected s = s := by
  simp only [on_silence_detected, if_neg hcond]

theorem runTaskStep_nil (cb : Collab) (s : Sys) (hq : s.queue = []) :
    runTaskStep cb s = s := by
  unfold runTaskStep; rw [hq]

theorem runTaskStep_cons (cb : Collab) (s : Sys) (t : PendingTask)
    (rest : List PendingTask) (hq : s.queue = t :: rest) :
    runTaskStep cb s = execSeg cb t { s with queue := rest } := by
  unfold runTaskStep; rw [hq]

theorem genResponseSeg_flagged (cb : Collab) (s : Sys)
    (hflag : s.orch.response_in_progress = true) :
    genResponseSeg cb s = s := by
  simp [genResponseSeg, hflag]

theorem genResponseSeg_run (cb : Collab) (s : Sys)
    (hflag : s.orch.response_in_progress = false)
    (hws : s.orch.websocket = true) :
    (genResponseSeg cb s).llm_calls = s.llm_calls + 1 ∧
    aiRespCount (genResponseSeg cb s) = aiRespCount s + 1 ∧
    (genResponseSeg cb s).orch.response_in_progress = true ∧
    (genResponseSeg cb s).orch.is_ai_speaking = true ∧
    (genResponseSeg cb s).queue = s.queue ++ [PendingTask.genFinally] ∧
    (genResponseSeg cb s).orch.websocket = true := by
  simp [genResponseSeg, hflag, hws, aiRespCount, List.countP_append,
    Payload.isAiResponse]

/-- All queued tasks are fresh generation segments. -/
def allGenResponse (q : List PendingTask) : Prop :=
  ∀ t ∈ q, t = PendingTask.genResponse

/-- The single-flight phase invariant. -/
def SingleFlightInv (s : Sys) : Prop :=
  s.orch.websocket = true ∧
  ((s.llm_calls = 0 ∧ aiRespCount s = 0 ∧ s.orch.response_in_progress = false ∧
      s.orch.is_ai_speaking = false ∧ allGenResponse s.queue) ∨
   (s.llm_calls = 1 ∧ aiRespCount s = 1 ∧ s.orch.response_in_progress = true ∧
      s.orch.is_ai_speaking = true ∧
      ∃ l, s.queue = l ++ [PendingTask.genFinally] ∧ allGenResponse l) ∨
   (s.llm_calls = 1 ∧ aiRespCount s = 1 ∧ s.orch.response_in_progress = false ∧
      s.orch.is_ai_speaking = true ∧ s.queue = []))

theorem inv_silence (s : Sys) (h : SingleFlightInv s) :
    SingleFlightInv (on_silence_detected s) := by
  obtain ⟨hws, hphase⟩ := h
  by_cases hcond : pyStrip s.orch.current_user_speech ≠ "" ∧
      s.orch.is_ai_speaking = false ∧ s.orch.response_in_progress = false
  · rw [on_silence_pos s hcond]
    rcases hphase with hA | hB | hC
    · refine ⟨hws, Or.inl ⟨hA.1, hA.2.1, hA.2.2.1, hA.2.2.2.1, ?_⟩⟩
      intro t ht
      rcases List.mem_append.mp ht with h1 | h1
      · exact hA.2.2.2.2 t h1
      · simpa using h1
    · rw [hB.2.2.2.1] at hcond
      exact absurd hcond.2.1 (by simp)
    · rw [hC.2.2.2.1] at hcond
      exact absurd hcond.2.1 (by simp)
  · rw [on_silence_neg s hcond]
    exact ⟨hws, hphase⟩

theorem inv_runTask (cb : Collab) (s : Sys) (h : SingleFlightInv s) :
    SingleFlightInv (runTaskStep cb s) := by
  obtain ⟨hws, hphase⟩ := h
  rcases hq : s.queue with _ | ⟨t, rest⟩
  · rw [runTaskStep_nil cb s hq]
    exact ⟨hws, hphase⟩
  · rw [runTaskStep_cons cb s t rest hq]
    rcases hphase with hA | hB | hC
    · have ht : t = PendingTask.genResponse := hA.2.2.2.2 t (by rw [hq]; simp)
      subst ht
      have hrun := genResponseSeg_run cb { s with queue := rest } hA.2.2.1 hws
      refine ⟨hrun.2.2.2.2.2, Or.inr (Or.inl ?_)⟩
      refine ⟨?_, ?_, hrun.2.2.1, hrun.2.2.2.1, rest, hrun.2.2.2.2.1, ?_⟩
      · rw [show (execSeg cb PendingTask.genResponse { s with queue := rest }).llm_calls
            = (genResponseSeg cb { s with queue := rest }).llm_calls from rfl,
          hrun.1]
        show s.llm_calls + 1 = 1
        rw [hA.1]
      · rw [show aiRespCount (execSeg cb PendingTask.genResponse { s with queue := rest })
            = aiRespCount (genResponseSeg cb { s with queue := rest }) from rfl,
          hrun.2.1]
        show aiRespCount s + 1 = 1
        rw [hA.2.1]
      · intro x hx
        exact hA.2.2.2.2 x (by rw [hq]; exact List.mem_cons_of_mem _ hx)
    · obtain ⟨l, hl, hlgen⟩ := hB.2.2.2.2
      rcases l with _ | ⟨t0, l'⟩
      · have hts : t = PendingTask.genFinally ∧ rest = [] := by
          rw [hq] at hl; simpa using hl
        obtain ⟨ht, hrest⟩ := hts
        subst ht; subst hrest
        exact ⟨hws, Or.inr (Or.inr ⟨hB.1, hB.2.1, rfl, hB.2.2.2.1, rfl⟩)⟩
      · have hts : t = t0 ∧ rest = l' ++ [PendingTask.genFinally] := by
          rw [hq] at hl; simpa using hl
        obtain ⟨ht, hrest⟩ := hts
        have ht0 : t0 = PendingTask.genResponse := hlgen t0 (by simp)
        subst ht; rw [ht0]
        rw [show execSeg cb PendingTask.genResponse { s with queue := rest }
            = genResponseSeg cb { s with queue := rest } from rfl,
          genResponseSeg_flagged cb { s with queue := rest } hB.2.2.1]
        refine ⟨hws, Or.inr (Or.inl ⟨hB.1, hB.2.1, hB.2.2.1, hB.2.2.2.1,
          l', ?_, fun x hx => hlgen x (by simp [hx])⟩)⟩
        show rest = l' ++ [PendingTask.genFinally]
        exact hrest
    · rw [hC.2.2.2.2] at hq
      exact absurd hq (by simp)

theorem stopOp_frame (s : Sys) :
    (stopOp s).llm_calls = s.llm_calls ∧
    aiRespCount (stopOp s) = aiRespCount s ∧
    (stopOp s).orch.response_in_progress = s.orch.response_in_progress ∧
    (stopOp s).orch.is_ai_speaking = s.orch.is_ai_speaking ∧
    (stopOp s).queue = s.queue ∧
    (stopOp s).orch.websocket = s.orch.websocket :=
  ⟨rfl, rfl, rfl, rfl, rfl, rfl⟩

theorem end_interview_frame (cb : Collab) (s : Sys) :
    (end_interview cb s).llm_calls = s.llm_calls ∧
    aiRespCount (end_interview cb s) = aiRespCount s ∧
    (end_interview cb s).orch.response_in_progress = s.orch.response_in_progress ∧
    (end_interview cb s).orch.is_ai_speaking = s.orch.is_ai_speaking ∧
    (end_interview cb s).queue = s.queue ∧
    (end_interview cb s).orch.websocket = s.orch.websocket := by
  by_cases hact : s.orch.interview_active = false
  · simp [end_interview, hact]
  · by_cases hws : s.orch.websocket
    · simp [end_interview, hact, hws, aiRespCount, List.countP_append,
        Payload.isAiResponse]
    · simp [end_interview, hact, hws, aiRespCount]

theorem inv_frame_preserved (s s' : Sys)
    (f1 : s'.llm_calls = s.llm_calls) (f2 : aiRespCount s' = aiRespCount s)
    (f3 : s'.orch.response_in_progress = s.orch.response_in_progress)
    (f4 : s'.orch.is_ai_speaking = s.orch.is_ai_speaking)
    (f5 : s'.queue = s.queue) (f6 : s'.orch.websocket = s.orch.websocket)
    (h : SingleFlightInv s) : SingleFlightInv s' := by
  obtain ⟨hws, hphase⟩ := h
  refine ⟨by rw [f6]; exact hws, ?_⟩
  rcases hphase with hA | hB | hC
  · exact Or.inl ⟨by rw [f1]; exact hA.1, by rw [f2]; exact hA.2.1,
      by rw [f3]; exact hA.2.2.1, by rw [f4]; exact hA.2.2.2.1,
      by rw [f5]; exact hA.2.2.2.2⟩
  · obtain ⟨l, hl, hlg⟩ := hB.2.2.2.2
    exact Or.inr (Or.inl ⟨by rw [f1]; exact hB.1, by rw [f2]; exact hB.2.1,
      by rw [f3]; exact hB.2.2.1, by rw [f4]; exact hB.2.2.2.1,
      l, by rw [f5]; exact hl, hlg⟩)
  · exact Or.inr (Or.inr ⟨by rw [f1]; exact hC.1, by rw [f2]; exact hC.2.1,
      by rw [f3]; exact hC.2.2.1, by rw [f4]; exact hC.2.2.2.1,
      by rw [f5]; exact hC.2.2.2.2⟩)

theorem SingleFlightInv_step (cb : Collab) (e : Ev) (s : Sys)
    (h : SingleFlightInv s) : SingleFlightInv (stepEv cb e s) := by
  cases e with
  | silence => exact inv_silence s h
  | runTask => exact inv_runTask cb s h
  | stop =>
    obtain ⟨f1, f2, f3, f4, f5, f6⟩ := stopOp_frame s
    exact inv_frame_preserved s (stopOp s) f1 f2 f3 f4 f5 f6 h
  | endInt =>
    obtain ⟨f1, f2, f3, f4, f5, f6⟩ := end_interview_frame cb s
    exact inv_frame_preserved s (end_interview cb s) f1 f2 f3 f4 f5 f6 h

theorem SingleFlightInv_run (cb : Collab) (es : List Ev) :
    ∀ s : Sys, SingleFlightInv s → SingleFlightInv (runEvents cb es s) := by
  induction es with
  | nil => intro s h; exact h
  | cons e rest ih => intro s h; exact ih _ (SingleFlightInv_step cb e s h)

theorem SingleFlightInv_bounds (s : Sys) (h : SingleFlightInv s) :
    s.llm_calls ≤ 1 ∧ aiRespCount s ≤ 1 ∧
    s.queue.count PendingTask.genFinally ≤ 1 := by
  obtain ⟨-, hphase⟩ := h
  rcases hphase with hA | hB | hC
  · have hnm : PendingTask.genFinally ∉ s.queue := by
      intro hm
      have := hA.2.2.2.2 _ hm
      simp at this
    rw [hA.1, hA.2.1, List.count_eq_zero.mpr hnm]
    exact ⟨by omega, by omega, by omega⟩
  · obtain ⟨l, hl, hlg⟩ := hB.2.2.2.2
    have hnm : PendingTask.genFinally ∉ l := by
      intro hm
      have := hlg _ hm
      simp at this
    rw [hB.1, hB.2.1, hl, List.count_append, List.count_eq_zero.mpr hnm]
    simp
  · rw [hC.1, hC.2.1, hC.2.2.2.2]
    simp

theorem listeningSys_inv (u : String) : SingleFlightInv (listeningSys u) := by
  refine ⟨rfl, Or.inl ⟨rfl, rfl, rfl, rfl, ?_⟩⟩
  intro t ht
  simp [listeningSys] at ht

/-- C3: at most one response generation is in flight per session at any time —
over every event sequence from a listening session, at most one
`generate_response` collaborator call is made, at most one `ai_response`
payload is emitted, and at most one generation continuation is ever queued;
in the concrete race where two silence notifications fire before the first
generation task runs, draining the queue performs exactly one collaborator
call and emits exactly one `ai_response` payload; and a generation segment
entered while the single-flight flag is set returns immediately with no side
effects. -/
theorem C3_single_flight (cb : Collab) (u : String) :
    (∀ es : List Ev,
      (runEvents cb es (listeningSys u)).llm_calls ≤ 1 ∧
      aiRespCount (runEvents cb es (listeningSys u)) ≤ 1 ∧
      (runEvents cb es (listeningSys u)).queue.count PendingTask.genFinally ≤ 1) ∧
    (pyStrip u ≠ "" →
      (runEvents cb [Ev.silence, Ev.silence, Ev.runTask, Ev.runTask, Ev.runTask]
          (listeningSys u)).llm_calls = 1 ∧
      aiRespCount (runEvents cb [Ev.silence, Ev.silence, Ev.runTask, Ev.runTask,
          Ev.runTask] (listeningSys u)) = 1) ∧
    (∀ s : Sys, s.orch.response_in_progress = true → genResponseSeg cb s = s) := by
  refine ⟨?_, ?_, fun s hs => genResponseSeg_flagged cb s hs⟩
  · intro es
    exact SingleFlightInv_bounds _ (SingleFlightInv_run cb es _ (listeningSys_inv u))
  · intro hu
    simp [runEvents, stepEv, on_silence_detected, runTaskStep, execSeg,
      genResponseSeg, genFinallySeg, listeningSys, aiRespCount,
      Payload.isAiResponse, hu]

/-- Witness for C3 on a concrete collaborator and utterance. -/
theorem C3_single_flight_witness :
    (runEvents cbT [Ev.silence, Ev.runTask] (listeningSys "hey")).llm_calls ≤ 1 ∧
    (runEvents cbT [Ev.silence, Ev.silence, Ev.runTask, Ev.runTask, Ev.runTask]
        (listeningSys "hey")).llm_calls = 1 ∧
    aiRespCount (runEvents cbT [Ev.silence, Ev.silence, Ev.runTask, Ev.runTask,
        Ev.runTask] (listeningSys "hey")) = 1 ∧
    genResponseSeg cbT
        { aiSpeakingSys with
            orch := { aiSpeakingSys.orch with response_in_progress := true } } =
      { aiSpeakingSys with
          orch := { aiSpeakingSys.orch with response_in_progress := true } } := by
  have h := C3_single_flight cbT "hey"
  refine ⟨(h.1 [Ev.silence, Ev.runTask]).1, (h.2.1 (by decide)).1,
    (h.2.1 (by decide)).2, h.2.2 _ rfl⟩

end Interview
